import Mathlib

/-!
Shallow embedding of the smssync protocol adapter (src/src/index.js):
secret-based authentication middleware, task classification on
(HTTP method, `task` query parameter), message-field projection with a
derived hash, and response-envelope construction for each task.
-/

/-- JavaScript-like values as delivered by the body parsers (JSON or
url-encoded form) and produced by handlers. -/
inductive Value where
  | vstr (s : String)
  | vnum (n : Int)
  | vbool (b : Bool)
  | vnull
  | vundefined
  | varr (xs : List Value)
  | vobj (fields : List (String × Value))

/-- A string-keyed JavaScript object, as an association list. -/
abbrev Obj := List (String × Value)

/-- JavaScript truthiness of a value. -/
def truthy : Value → Bool
  | .vstr s => s ≠ ""
  | .vnum n => n ≠ 0
  | .vbool b => b
  | .vnull => false
  | .vundefined => false
  | .varr _ => true
  | .vobj _ => true

/-- Look up a key in a JavaScript object; `none` models an absent property
(distinct from a property stored as `undefined`). -/
def lookupKey (o : Obj) (k : String) : Option Value :=
  (o.find? (fun p => p.1 == k)).map (fun p => p.2)

/-- Property access `body.k` / lodash `_.get(body, k)`: an absent property
reads as `undefined`. -/
def jsGet (o : Obj) (k : String) : Value :=
  match lookupKey o k with
  | some v => v
  | none => .vundefined

/-- Property access on an arbitrary value (lodash map over the path "to" reads the
`to` property of each element; non-objects yield `undefined`). -/
def jsGetV (v : Value) (k : String) : Value :=
  match v with
  | .vobj o => jsGet o k
  | _ => .vundefined

/-- JavaScript `[].concat(result)`: an array is spread, any other value (including
`null` and `undefined`) is appended as a single element. -/
def jsConcat (v : Value) : List Value :=
  match v with
  | .varr xs => xs
  | _ => [v]

/-- String short-circuit `a || b`: `a` when non-empty (truthy), else `b`. -/
def jsOrStr (a b : String) : String :=
  if a == "" then b else a

/-- JavaScript strict equality `s === v` between a string and a value. -/
def strictEqStr (s : String) (v : Value) : Bool :=
  match v with
  | .vstr t => s == t
  | _ => false

/-- lodash `_.pick(o, fields)`: keep exactly the listed fields that are
present, in the order of the field list. -/
def pick (o : Obj) (fields : List String) : Obj :=
  fields.filterMap (fun f => (lookupKey o f).map (fun v => (f, v)))

/-- lodash `_.merge({}, o, {k: v})` for a single scalar key: override `k`
when present, append it otherwise. -/
def setKey (o : Obj) (k : String) (v : Value) : Obj :=
  if (o.find? (fun p => p.1 == k)).isSome then
    o.map (fun p => if p.1 == k then (k, v) else p)
  else
    o ++ [(k, v)]

-- smssync tasks (src/index.js: TASK_SEND, TASK_RESULT, TASK_SENT)
def TASK_SEND : String := "send"
def TASK_RESULT : String := "result"
def TASK_SENT : String := "sent"

/-- sms message fields (src/index.js: MESSAGE_FIELDS). -/
def MESSAGE_FIELDS : List String :=
  ["from", "message", "message_id", "sent_to", "device_id", "sent_timestamp"]

/-- Merged configuration options (defaults: endpoint "smssync",
secret "smssync", reply true, error true). -/
structure Options where
  endpoint : String
  secret : String
  reply : Bool
  error : Bool

/-- The defaults merged into user options by `smssync(optns)`. -/
def defaultOptions : Options :=
  ⟨"smssync", "smssync", true, true⟩

/-- HTTP method of a request reaching the router. -/
inductive Method where
  | get
  | post
deriving DecidableEq

/-- An incoming HTTP request after body parsing: method, query parameters
(strings, as parsed by express), and a decoded body object. -/
structure Request where
  method : Method
  query : List (String × String)
  body : Obj

/-- Query-parameter lookup (`request.query.k`). -/
def queryGet (q : List (String × String)) (k : String) : Option String :=
  (q.find? (fun p => p.1 == k)).map (fun p => p.2)

/-- A JavaScript `Error` carrying a message (`new Error(msg)`;
`new Error()` has message `""`). -/
structure JsError where
  message : String
deriving DecidableEq

/-- Arguments a handler passes to its completion callback `done(error,
result)`: `error = none` models a null/undefined error (success). -/
structure CbArgs where
  error : Option JsError
  result : Value

/-- Application-supplied handlers; each is invoked once per matching request
and completes once with `(error, result)`. -/
structure Handlers where
  onReceive : Value → CbArgs
  onSent : Value → CbArgs
  onDelivered : Value → CbArgs
  onSend : CbArgs
  onQueued : CbArgs

/-- The outcome the router produces for a request: `ok body` is
`response.ok(body)` (HTTP 200 with a JSON body); `next e` is `next(error)`,
forwarding the failure to the external error-handling middleware. -/
inductive Response where
  | ok (body : Value)
  | next (e : JsError)

/-- The test `task && task === s` on an optional query parameter. -/
def taskIs (t : Option String) (s : String) : Bool :=
  match t with
  | some x => x ≠ "" && x == s
  | none => false

/-- The five protocol operations, derived from (method, task parameter). -/
inductive SmsTask where
  | sentAck
  | deliveryResult
  | receiveMessage
  | queuedPoll
  | sendPoll
deriving DecidableEq

/-- Task classification: the branch structure of the POST and GET route
handlers in src/index.js. -/
def classify (m : Method) (t : Option String) : SmsTask :=
  match m with
  | .post =>
    if taskIs t TASK_SENT then .sentAck
    else if taskIs t TASK_RESULT then .deliveryResult
    else .receiveMessage
  | .get =>
    if taskIs t TASK_RESULT then .queuedPoll
    else .sendPoll

/-- Error envelope `{payload: {success: false, error: message}}`. -/
def errorReply (message : String) : Value :=
  .vobj [("payload", .vobj [("success", .vbool false), ("error", .vstr message)])]

/-- Success envelope `{payload: {success: true, error: null}}`. -/
def successReply : Value :=
  .vobj [("payload", .vobj [("success", .vbool true), ("error", .vnull)])]

/-- The secret provided with a request:
`(request.query || {}).secret || (request.body || {}).secret`. -/
def providedSecret (r : Request) : Value :=
  let qs : Value :=
    match queryGet r.query "secret" with
    | some s => .vstr s
    | none => .vundefined
  let bs : Value := jsGet r.body "secret"
  if truthy qs then qs else bs

/-- The check `options.secret === secret` in the secret middleware. -/
def isValidSecret (o : Options) (r : Request) : Bool :=
  strictEqStr o.secret (providedSecret r)

/-- The check: method is POST and `(request.query.task === TASK_SENT ||
request.query.task === TASK_RESULT)`. -/
def isAllowedRequest (r : Request) : Bool :=
  match r.method, queryGet r.query "task" with
  | .post, some t => t == TASK_SENT || t == TASK_RESULT
  | _, _ => false

/-- The normalized message handed to `onReceive`: the body projected to
MESSAGE_FIELDS, merged with a `hash` computed over the projection
(`hashFn` models the external object-hash function, a pure function of its
input mapping). -/
def normalizedMessage (hashFn : Obj → String) (body : Obj) : Obj :=
  let picked := pick body MESSAGE_FIELDS
  setKey picked "hash" (.vstr (hashFn picked))

/-- The reply test: size of compact of the mapped "to" fields of the
flattened result is positive. -/
def hasReply (result : Value) : Bool :=
  (((jsConcat result).map (fun v => jsGetV v "to")).filter truthy).length > 0

/-- The `onSent` completion callback: render `{queued_messages: [].concat(result)}`. -/
def onSentCompose (args : CbArgs) : Response :=
  .ok (.vobj [("queued_messages", .varr (jsConcat args.result))])

/-- The `onDelivered` completion callback. -/
def onDeliveredCompose (o : Options) (args : CbArgs) : Response :=
  match args.error with
  | some e =>
    if !o.error then .next e
    else .ok (errorReply (jsOrStr e.message "Fail to process delivery reports"))
  | none => .ok successReply

/-- The `onReceive` completion callback. -/
def onReceiveCompose (o : Options) (args : CbArgs) : Response :=
  let hr := hasReply args.result
  match args.error with
  | some e =>
    if !o.error then .next e
    else .ok (errorReply (jsOrStr e.message "Fail to process received message"))
  | none =>
    if o.reply && hr then
      .ok (.vobj [("payload", .vobj
        [("success", .vbool true),
         ("task", .vstr TASK_SEND),
         ("messages", .varr (jsConcat args.result))])])
    else .ok successReply

/-- The `onQueued` completion callback: render `{message_uuids: [].concat(result)}`. -/
def onQueuedCompose (args : CbArgs) : Response :=
  .ok (.vobj [("message_uuids", .varr (jsConcat args.result))])

/-- The `onSend` completion callback. -/
def onSendCompose (o : Options) (args : CbArgs) : Response :=
  match args.error with
  | some e =>
    if !o.error then .next e
    else .ok (errorReply (jsOrStr e.message "Fail to obtain message to send"))
  | none =>
    .ok (.vobj [("payload", .vobj
      [("task", .vstr TASK_SEND),
       ("secret", .vstr o.secret),
       ("messages", .varr (jsConcat args.result))])])

/-- The POST route handler on `/${options.endpoint}`. -/
def handlePost (o : Options) (h : Handlers) (hashFn : Obj → String)
    (r : Request) : Response :=
  let task := queryGet r.query "task"
  if taskIs task TASK_SENT then
    onSentCompose (h.onSent (jsGet r.body "queued_messages"))
  else if taskIs task TASK_RESULT then
    onDeliveredCompose o (h.onDelivered (jsGet r.body "message_result"))
  else
    onReceiveCompose o (h.onReceive (.vobj (normalizedMessage hashFn r.body)))

/-- The GET route handler on `/${options.endpoint}`. -/
def handleGet (o : Options) (h : Handlers) (r : Request) : Response :=
  let task := queryGet r.query "task"
  if taskIs task TASK_RESULT then
    onQueuedCompose h.onQueued
  else
    onSendCompose o h.onSend

/-- The whole pipeline for one request to the endpoint: the secret
middleware (installed only when the configured secret is non-empty),
then the route handler for the request method. -/
def smssyncHandle (o : Options) (h : Handlers) (hashFn : Obj → String)
    (r : Request) : Response :=
  if o.secret ≠ "" && !(isValidSecret o r || isAllowedRequest r) then
    if !o.error then .next (JsError.mk "Secret Key Mismatch")
    else .ok (errorReply (jsOrStr "Secret Key Mismatch" "Fail to process delivery reports"))
  else
    match r.method with
    | .post => handlePost o h hashFn r
    | .get => handleGet o h r

/-- Whether a value is a JavaScript array. -/
def isArr : Value → Bool
  | .varr _ => true
  | _ => false

-- Concrete fixtures used by witness theorems.

/-- A concrete stand-in for the external object-hash function. -/
def constHash : Obj → String := fun _ => "h"

/-- Concrete test handlers: `onReceive` replies to the sender,
`onSent` echoes the queued uuids, `onSend`/`onQueued` return fixed lists. -/
def testHandlers : Handlers :=
  ⟨fun m => ⟨none, .vobj [("to", jsGetV m "from"), ("uuid", jsGetV m "message_id"),
                          ("message", jsGetV m "message")]⟩,
   fun q => ⟨none, q⟩,
   fun _ => ⟨none, .vundefined⟩,
   ⟨none, .varr [.vobj [("to", .vstr "+1"), ("message", .vstr "x"), ("uuid", .vstr "u1")]]⟩,
   ⟨none, .varr [.vstr "u1"]⟩⟩

-- Helper lemmas about object lookup.

theorem lookupKey_nil (k : String) : lookupKey [] k = none := rfl

theorem lookupKey_cons (f : String) (v : Value) (o : Obj) (k : String) :
    lookupKey ((f, v) :: o) k = if f == k then some v else lookupKey o k := by
  simp only [lookupKey, List.find?]
  cases hfk : (f == k) <;> simp [hfk]

theorem lookupKey_append (o1 o2 : Obj) (k : String) :
    lookupKey (o1 ++ o2) k =
      match lookupKey o1 k with
      | some v => some v
      | none => lookupKey o2 k := by
  induction o1 with
  | nil => simp [lookupKey_nil]
  | cons p o1 ih =>
    rw [List.cons_append]
    rcases p with ⟨f, v⟩
    rw [lookupKey_cons, lookupKey_cons]
    by_cases h : f = k
    · simp [h]
    · simp [h, ih]

theorem pick_cons (b : Obj) (f : String) (fs : List String) :
    pick b (f :: fs) =
      match lookupKey b f with
      | some v => (f, v) :: pick b fs
      | none => pick b fs := by
  simp only [pick, List.filterMap_cons]
  cases lookupKey b f <;> rfl

theorem lookupKey_pick (b : Obj) (fields : List String) (k : String) :
    lookupKey (pick b fields) k = if k ∈ fields then lookupKey b k else none := by
  induction fields with
  | nil => simp [pick, lookupKey_nil]
  | cons f fs ih =>
    rw [pick_cons]
    cases hf : lookupKey b f with
    | none =>
      rw [ih]
      by_cases hk : k = f
      · subst hk
        by_cases hm : k ∈ fs <;> simp [hm, hf]
      · simp [List.mem_cons, hk]
    | some v =>
      rw [lookupKey_cons, ih]
      by_cases hk : k = f
      · subst hk
        simp [hf]
      · have hkf : ¬f = k := fun hh => hk hh.symm
        simp [hkf, List.mem_cons, hk]

theorem setKey_of_absent (o : Obj) (k : String) (v : Value)
    (h : lookupKey o k = none) : setKey o k v = o ++ [(k, v)] := by
  have hf : (o.find? (fun p => p.1 == k)) = none := by
    simp only [lookupKey] at h
    exact Option.map_eq_none'.mp h
  simp [setKey, hf]

theorem strictEqStr_eq_false (s : String) (v : Value) (h : v ≠ .vstr s) :
    strictEqStr s v = false := by
  cases v with
  | vstr t =>
    have hst : ¬s = t := fun hh => h (by rw [hh])
    simp [strictEqStr, hst]
  | vnum n => rfl
  | vbool b => rfl
  | vnull => rfl
  | vundefined => rfl
  | varr xs => rfl
  | vobj fs => rfl

theorem isAllowedRequest_eq_false (r : Request)
    (hx : ¬(r.method = .post ∧ (queryGet r.query "task" = some TASK_SENT ∨
      queryGet r.query "task" = some TASK_RESULT))) :
    isAllowedRequest r = false := by
  obtain ⟨m, q, b⟩ := r
  cases m with
  | get => cases hq : queryGet q "task" <;> simp [isAllowedRequest, hq]
  | post =>
    cases hq : queryGet q "task" with
    | none => simp [isAllowedRequest, hq]
    | some t =>
      simp only [isAllowedRequest, hq]
      have h1 : ¬t = TASK_SENT := fun hh => hx ⟨rfl, Or.inl (by rw [hq, hh])⟩
      have h2 : ¬t = TASK_RESULT := fun hh => hx ⟨rfl, Or.inr (by rw [hq, hh])⟩
      simp [h1, h2]

theorem smssyncHandle_rejected (o : Options) (h : Handlers)
    (hashFn : Obj → String) (r : Request) (hs : o.secret ≠ "")
    (hv : isValidSecret o r = false) (ha : isAllowedRequest r = false) :
    smssyncHandle o h hashFn r =
      if o.error then .ok (errorReply "Secret Key Mismatch")
      else .next (JsError.mk "Secret Key Mismatch") := by
  unfold smssyncHandle
  rw [hv, ha]
  simp only [hs, jsOrStr]
  cases he : o.error <;> simp [hs]

/-- C1: when the configured secret is non-empty, the provided secret does
not match it, and the request is not a POST with task `sent` or `result`,
the pipeline short-circuits before any handler runs: with inline errors the
response is `{payload: {success: false, error: "Secret Key Mismatch"}}`,
without them the failure goes to the external error channel; the outcome is
independent of the installed handlers. -/
theorem secret_mismatch_short_circuits (o : Options) (h h2 : Handlers)
    (hashFn hashFn2 : Obj → String) (r : Request)
    (hs : o.secret ≠ "")
    (hm : providedSecret r ≠ .vstr o.secret)
    (hx : ¬(r.method = .post ∧ (queryGet r.query "task" = some TASK_SENT ∨
      queryGet r.query "task" = some TASK_RESULT))) :
    (o.error = true → smssyncHandle o h hashFn r = .ok (errorReply "Secret Key Mismatch")) ∧
    (o.error = false → smssyncHandle o h hashFn r = .next (JsError.mk "Secret Key Mismatch")) ∧
    smssyncHandle o h hashFn r = smssyncHandle o h2 hashFn2 r := by
  have hv : isValidSecret o r = false := strictEqStr_eq_false o.secret _ hm
  have ha := isAllowedRequest_eq_false r hx
  have e1 := smssyncHandle_rejected o h hashFn r hs hv ha
  have e2 := smssyncHandle_rejected o h2 hashFn2 r hs hv ha
  refine ⟨fun he => ?_, fun he => ?_, ?_⟩
  · rw [e1, he]; rfl
  · rw [e1, he]; rfl
  · rw [e1, e2]

/-- Witness for C1: a GET with no secret at all, against the default
configuration, is answered with the Secret Key Mismatch envelope. -/
theorem secret_mismatch_short_circuits_witness :
    smssyncHandle defaultOptions testHandlers constHash ⟨Method.get, [], []⟩ =
      .ok (errorReply "Secret Key Mismatch") :=
  (secret_mismatch_short_circuits defaultOptions testHandlers testHandlers
    constHash constHash ⟨Method.get, [], []⟩ (by decide)
    (by simp [providedSecret, queryGet, jsGet, lookupKey, defaultOptions, truthy])
    (by decide)).1 rfl

/-- C2: task classification is a pure function of (method, task query
parameter) following the protocol table, and normalization of a body is
deterministic. -/
theorem classify_table :
    classify .post (some TASK_SENT) = .sentAck ∧
    classify .post (some TASK_RESULT) = .deliveryResult ∧
    (∀ t : Option String, t ≠ some TASK_SENT → t ≠ some TASK_RESULT →
      classify .post t = .receiveMessage) ∧
    classify .get (some TASK_RESULT) = .queuedPoll ∧
    (∀ t : Option String, t ≠ some TASK_RESULT → classify .get t = .sendPoll) ∧
    (∀ (m : Method) (t : Option String) (hashFn : Obj → String) (b : Obj),
      classify m t = classify m t ∧
      normalizedMessage hashFn b = normalizedMessage hashFn b) := by
  refine ⟨by decide, by decide, ?_, by decide, ?_, ?_⟩
  · intro t h1 h2
    match t with
    | none => rfl
    | some s =>
      have hs1 : ¬s = TASK_SENT := fun hh => h1 (by rw [hh])
      have hs2 : ¬s = TASK_RESULT := fun hh => h2 (by rw [hh])
      simp [classify, taskIs, hs1, hs2]
  · intro t h1
    match t with
    | none => rfl
    | some s =>
      have hs : ¬s = TASK_RESULT := fun hh => h1 (by rw [hh])
      simp [classify, taskIs, hs]
  · exact fun m t hashFn b => ⟨rfl, rfl⟩

/-- Witness for C2: a POST with an unknown task is a ReceiveMessage, and a
GET without a task is a SendPoll. -/
theorem classify_table_witness :
    classify .post (some "text") = .receiveMessage ∧
    classify .get none = .sendPoll :=
  ⟨classify_table.2.2.1 (some "text") (by decide) (by decide),
   classify_table.2.2.2.2.1 none (by decide)⟩

theorem pick_congr (b b2 : Obj) (fields : List String)
    (hagree : ∀ f ∈ fields, lookupKey b f = lookupKey b2 f) :
    pick b fields = pick b2 fields := by
  induction fields with
  | nil => rfl
  | cons f fs ih =>
    rw [pick_cons, pick_cons, hagree f (List.mem_cons_self f fs),
      ih (fun g hg => hagree g (List.mem_cons_of_mem f hg))]

theorem normalizedMessage_eq_append (hashFn : Obj → String) (b : Obj) :
    normalizedMessage hashFn b =
      pick b MESSAGE_FIELDS ++
        [("hash", .vstr (hashFn (pick b MESSAGE_FIELDS)))] := by
  have hnone : lookupKey (pick b MESSAGE_FIELDS) "hash" = none := by
    rw [lookupKey_pick, if_neg (by decide)]
  unfold normalizedMessage
  exact setKey_of_absent _ _ _ hnone

/-- C3: the hash of a normalized message depends only on the six
MESSAGE_FIELDS of the body, and the message handed to the receive handler
is exactly the body restricted to those fields plus the derived `hash`:
unknown fields are dropped and missing fields stay absent. -/
theorem receive_projection_and_hash (hashFn : Obj → String) (b b2 : Obj)
    (hagree : ∀ f ∈ MESSAGE_FIELDS, lookupKey b f = lookupKey b2 f) :
    hashFn (pick b MESSAGE_FIELDS) = hashFn (pick b2 MESSAGE_FIELDS) ∧
    normalizedMessage hashFn b = normalizedMessage hashFn b2 ∧
    (∀ k ∈ MESSAGE_FIELDS,
      lookupKey (normalizedMessage hashFn b) k = lookupKey b k) ∧
    lookupKey (normalizedMessage hashFn b) "hash" =
      some (.vstr (hashFn (pick b MESSAGE_FIELDS))) ∧
    (∀ k, k ∉ MESSAGE_FIELDS → k ≠ "hash" →
      lookupKey (normalizedMessage hashFn b) k = none) := by
  have hpick : pick b MESSAGE_FIELDS = pick b2 MESSAGE_FIELDS :=
    pick_congr b b2 MESSAGE_FIELDS hagree
  refine ⟨by rw [hpick], ?_, ?_, ?_, ?_⟩
  · rw [normalizedMessage_eq_append, normalizedMessage_eq_append, hpick]
  · intro k hk
    have hkh : ¬("hash" = k) := by
      intro hh
      subst hh
      exact absurd hk (by decide)
    rw [normalizedMessage_eq_append, lookupKey_append, lookupKey_pick, if_pos hk]
    cases hbk : lookupKey b k with
    | some v => rfl
    | none =>
      rw [lookupKey_cons, if_neg (by simp [hkh]), lookupKey_nil]
  · rw [normalizedMessage_eq_append, lookupKey_append, lookupKey_pick,
      if_neg (by decide), lookupKey_cons]
    simp
  · intro k hk hkh
    have hhk : ¬"hash" = k := fun hh => hkh hh.symm
    rw [normalizedMessage_eq_append, lookupKey_append, lookupKey_pick,
      if_neg hk, lookupKey_cons, if_neg (by simp [hhk]), lookupKey_nil]

/-- Witness for C3: two scenario-A bodies differing only in a `secret`
field normalize identically, and the extraneous `secret` field is absent
from the message handed to the receive handler. -/
theorem receive_projection_and_hash_witness :
    normalizedMessage constHash
        [("from", .vstr "+1"), ("message", .vstr "hi"), ("message_id", .vstr "m1"),
         ("sent_to", .vstr "+2"), ("device_id", .vstr "d1"),
         ("sent_timestamp", .vstr "t1"), ("secret", .vstr "smssync")] =
      normalizedMessage constHash
        [("from", .vstr "+1"), ("message", .vstr "hi"), ("message_id", .vstr "m1"),
         ("sent_to", .vstr "+2"), ("device_id", .vstr "d1"),
         ("sent_timestamp", .vstr "t1")] ∧
    lookupKey (normalizedMessage constHash
        [("from", .vstr "+1"), ("message", .vstr "hi"), ("message_id", .vstr "m1"),
         ("sent_to", .vstr "+2"), ("device_id", .vstr "d1"),
         ("sent_timestamp", .vstr "t1"), ("secret", .vstr "smssync")]) "secret" =
      none :=
  ⟨(receive_projection_and_hash constHash _ _
      (by intro f hf; fin_cases hf <;> rfl)).2.1,
   (receive_projection_and_hash constHash _
      [("from", .vstr "+1"), ("message", .vstr "hi"), ("message_id", .vstr "m1"),
       ("sent_to", .vstr "+2"), ("device_id", .vstr "d1"),
       ("sent_timestamp", .vstr "t1")]
      (by intro f hf; fin_cases hf <;> rfl)).2.2.2.2 "secret"
      (by decide) (by decide)⟩


theorem hasReply_eq_true_iff (res : Value) :
    hasReply res = true ↔
      ∃ v ∈ jsConcat res, truthy (jsGetV v "to") = true := by
  simp only [hasReply, gt_iff_lt, decide_eq_true_eq]
  rw [List.length_pos, Ne, List.filter_eq_nil_iff]
  push_neg
  constructor
  · rintro ⟨x, hx, hpx⟩
    rcases List.mem_map.mp hx with ⟨v, hv, rfl⟩
    exact ⟨v, hv, hpx⟩
  · rintro ⟨v, hv, hp⟩
    exact ⟨jsGetV v "to", List.mem_map.mpr ⟨v, hv, rfl⟩, hp⟩

/-- C4: a successful ReceiveMessage with reply enabled and at least one
flattened reply item carrying a truthy (non-empty) `to` answers
`{payload: {success: true, task: "send", messages: <flattened replies>}}`
with no `error` key at all; otherwise it answers
`{payload: {success: true, error: null}}`. -/
theorem receive_success_envelope (o : Options) (args : CbArgs)
    (he : args.error = none) :
    (o.reply = true →
      (∃ v ∈ jsConcat args.result, truthy (jsGetV v "to") = true) →
      onReceiveCompose o args = .ok (.vobj [("payload", .vobj
        [("success", .vbool true), ("task", .vstr TASK_SEND),
         ("messages", .varr (jsConcat args.result))])]) ∧
      lookupKey [("success", Value.vbool true), ("task", Value.vstr TASK_SEND),
        ("messages", Value.varr (jsConcat args.result))] "error" = none) ∧
    (o.reply = false ∨ ¬(∃ v ∈ jsConcat args.result, truthy (jsGetV v "to") = true) →
      onReceiveCompose o args = .ok successReply) := by
  constructor
  · intro hrep hex
    have hr : hasReply args.result = true := (hasReply_eq_true_iff args.result).mpr hex
    constructor
    · simp [onReceiveCompose, he, hrep, hr]
    · rw [lookupKey_cons, if_neg (by decide), lookupKey_cons, if_neg (by decide),
        lookupKey_cons, if_neg (by decide), lookupKey_nil]
  · intro hor
    cases hor with
    | inl hrep => simp [onReceiveCompose, he, hrep]
    | inr hex =>
      have hr : hasReply args.result = false := by
        cases hb : hasReply args.result with
        | false => rfl
        | true => exact absurd ((hasReply_eq_true_iff args.result).mp hb) hex
      simp [onReceiveCompose, he, hr]

/-- Witness for C4: a receive handler answering a single reply to "+1"
under the default configuration produces the task-send envelope. -/
theorem receive_success_envelope_witness :
    onReceiveCompose defaultOptions ⟨none, .vobj [("to", .vstr "+1")]⟩ =
      .ok (.vobj [("payload", .vobj
        [("success", .vbool true), ("task", .vstr TASK_SEND),
         ("messages", .varr [.vobj [("to", .vstr "+1")]])])]) :=
  ((receive_success_envelope defaultOptions ⟨none, .vobj [("to", .vstr "+1")]⟩
    rfl).1 rfl ⟨.vobj [("to", .vstr "+1")], by simp [jsConcat], by rfl⟩).1

/-- C5: a successful SendPoll answers
`{payload: {task: "send", secret: <configured secret>, messages:
<flattened handler result>}}`. -/
theorem sendpoll_success_envelope (o : Options) (args : CbArgs)
    (he : args.error = none) :
    onSendCompose o args = .ok (.vobj [("payload", .vobj
      [("task", .vstr TASK_SEND), ("secret", .vstr o.secret),
       ("messages", .varr (jsConcat args.result))])]) := by
  simp [onSendCompose, he]

/-- Witness for C5: the scenario-B send handler result under the default
configuration, echoing the configured secret "smssync". -/
theorem sendpoll_success_envelope_witness :
    onSendCompose defaultOptions testHandlers.onSend =
      .ok (.vobj [("payload", .vobj
        [("task", .vstr TASK_SEND), ("secret", .vstr "smssync"),
         ("messages", .varr [.vobj [("to", .vstr "+1"), ("message", .vstr "x"),
           ("uuid", .vstr "u1")]])])]) :=
  sendpoll_success_envelope defaultOptions testHandlers.onSend rfl

theorem jsConcat_of_not_arr (v : Value) (h : isArr v = false) :
    jsConcat v = [v] := by
  cases v with
  | varr xs => simp [isArr] at h
  | vstr s => rfl
  | vnum n => rfl
  | vbool b => rfl
  | vnull => rfl
  | vundefined => rfl
  | vobj fs => rfl

/-- C6 counterexample: `onSent` completing with a null result is rendered
as `{queued_messages: [null]}` — a one-element sequence — not as the empty
sequence the claim requires. -/
theorem flatten_null_counterexample :
    onSentCompose ⟨none, Value.vnull⟩ =
      .ok (.vobj [("queued_messages", .varr [Value.vnull])]) ∧
    ¬ onSentCompose ⟨none, Value.vnull⟩ =
      .ok (.vobj [("queued_messages", .varr [])]) := by
  constructor
  · rfl
  · intro hc
    simp [onSentCompose, jsConcat] at hc

/-- C6 amended: flattening spreads an array unchanged and wraps every
non-array value — including null and undefined — as a one-element
sequence; null/absent results therefore render as `[null]`, not `[]`. -/
theorem flatten_behavior :
    (∀ (e : Option JsError) (xs : List Value),
      onSentCompose ⟨e, .varr xs⟩ =
        .ok (.vobj [("queued_messages", .varr xs)])) ∧
    (∀ (e : Option JsError) (v : Value), isArr v = false →
      onSentCompose ⟨e, v⟩ =
        .ok (.vobj [("queued_messages", .varr [v])])) ∧
    (∀ (e : Option JsError) (xs : List Value),
      onQueuedCompose ⟨e, .varr xs⟩ =
        .ok (.vobj [("message_uuids", .varr xs)])) ∧
    (∀ (e : Option JsError) (v : Value), isArr v = false →
      onQueuedCompose ⟨e, v⟩ =
        .ok (.vobj [("message_uuids", .varr [v])])) ∧
    jsConcat Value.vnull = [Value.vnull] ∧
    jsConcat Value.vundefined = [Value.vundefined] := by
  refine ⟨fun e xs => rfl, fun e v hv => ?_, fun e xs => rfl,
    fun e v hv => ?_, rfl, rfl⟩
  · simp [onSentCompose, jsConcat_of_not_arr v hv]
  · simp [onQueuedCompose, jsConcat_of_not_arr v hv]

/-- Witness for the amended C6: a bare string result is rendered as a
one-element sequence. -/
theorem flatten_behavior_witness :
    onSentCompose ⟨none, .vstr "u1"⟩ =
      .ok (.vobj [("queued_messages", .varr [.vstr "u1"])]) :=
  flatten_behavior.2.1 none (.vstr "u1") rfl

/-- C7 counterexample: with query `?secret=` (empty string) and a body
secret "smssync", the authenticator checks the body value, not the query
value, so the request is accepted under the default configuration; the
claim would have the empty query secret checked and the request rejected. -/
theorem query_secret_precedence_counterexample :
    providedSecret ⟨Method.get, [("secret", "")],
        [("secret", Value.vstr "smssync")]⟩ = Value.vstr "smssync" ∧
    ¬ providedSecret ⟨Method.get, [("secret", "")],
        [("secret", Value.vstr "smssync")]⟩ = Value.vstr "" ∧
    isValidSecret defaultOptions ⟨Method.get, [("secret", "")],
        [("secret", Value.vstr "smssync")]⟩ = true := by
  refine ⟨rfl, ?_, rfl⟩
  intro hc
  rw [show providedSecret ⟨Method.get, [("secret", "")],
      [("secret", Value.vstr "smssync")]⟩ = Value.vstr "smssync" from rfl] at hc
  injection hc with h
  exact absurd h (by decide)

/-- C7 amended: the query secret is checked only when it is present and
non-empty (truthy); an absent or empty query secret falls back to the
body-derived secret. -/
theorem provided_secret_amended (r : Request) :
    (∀ s, queryGet r.query "secret" = some s → s ≠ "" →
      providedSecret r = .vstr s) ∧
    (∀ s, queryGet r.query "secret" = some s → s = "" →
      providedSecret r = jsGet r.body "secret") ∧
    (queryGet r.query "secret" = none →
      providedSecret r = jsGet r.body "secret") := by
  refine ⟨?_, ?_, ?_⟩
  · intro s hq hs
    simp [providedSecret, hq, truthy, hs]
  · intro s hq hs
    subst hs
    simp [providedSecret, hq, truthy]
  · intro hq
    simp [providedSecret, hq, truthy]

/-- Witness for the amended C7: a non-empty query secret wins over the
body; an empty query secret falls back to the body. -/
theorem provided_secret_amended_witness :
    providedSecret ⟨Method.get, [("secret", "abc")],
        [("secret", Value.vstr "xyz")]⟩ = Value.vstr "abc" ∧
    providedSecret ⟨Method.get, [("secret", "")],
        [("secret", Value.vstr "xyz")]⟩ =
      jsGet [("secret", Value.vstr "xyz")] "secret" :=
  ⟨(provided_secret_amended ⟨Method.get, [("secret", "abc")],
      [("secret", Value.vstr "xyz")]⟩).1 "abc" rfl (by decide),
   (provided_secret_amended ⟨Method.get, [("secret", "")],
      [("secret", Value.vstr "xyz")]⟩).2.1 "" rfl rfl⟩

/-- C8: a handler failure carrying no message renders the per-task default
text — receive, delivery-report and send-poll defaults respectively — and
an authentication failure always renders "Secret Key Mismatch". -/
theorem default_failure_messages (o : Options) (res : Value)
    (he : o.error = true) :
    onReceiveCompose o ⟨some (JsError.mk ""), res⟩ =
      .ok (errorReply "Fail to process received message") ∧
    onDeliveredCompose o ⟨some (JsError.mk ""), res⟩ =
      .ok (errorReply "Fail to process delivery reports") ∧
    onSendCompose o ⟨some (JsError.mk ""), res⟩ =
      .ok (errorReply "Fail to obtain message to send") ∧
    (∀ (h : Handlers) (hashFn : Obj → String) (r : Request),
      o.secret ≠ "" → isValidSecret o r = false → isAllowedRequest r = false →
      smssyncHandle o h hashFn r = .ok (errorReply "Secret Key Mismatch")) := by
  refine ⟨?_, ?_, ?_, ?_⟩
  · simp [onReceiveCompose, he, jsOrStr]
  · simp [onDeliveredCompose, he, jsOrStr]
  · simp [onSendCompose, he, jsOrStr]
  · intro h hashFn r hs hv ha
    rw [smssyncHandle_rejected o h hashFn r hs hv ha]
    simp [he]

/-- Witness for C8: a message-less receive failure renders the receive
default, and an unauthenticated POST with an unknown task renders
"Secret Key Mismatch". -/
theorem default_failure_messages_witness :
    onReceiveCompose defaultOptions ⟨some (JsError.mk ""), Value.vnull⟩ =
      .ok (errorReply "Fail to process received message") ∧
    smssyncHandle defaultOptions testHandlers constHash
        ⟨Method.post, [("task", "x")], []⟩ =
      .ok (errorReply "Secret Key Mismatch") :=
  ⟨(default_failure_messages defaultOptions Value.vnull rfl).1,
   (default_failure_messages defaultOptions Value.vnull rfl).2.2.2
     testHandlers constHash ⟨Method.post, [("task", "x")], []⟩
     (by decide) rfl rfl⟩

/-- C9: SentAck and QueuedPoll are rendered with HTTP 200 from the handler
result alone — the error argument is never inspected, so the outcome is the
same for any error value and any `inlineErrors` setting, is never forwarded
to the error channel, and is never a success:false envelope. -/
theorem ack_and_queuedpoll_ignore_errors :
    (∀ (o : Options) (h : Handlers) (hashFn : Obj → String) (r : Request),
      r.method = .post → queryGet r.query "task" = some TASK_SENT →
      smssyncHandle o h hashFn r =
        .ok (.vobj [("queued_messages",
          .varr (jsConcat (h.onSent (jsGet r.body "queued_messages")).result))])) ∧
    (∀ (o : Options) (h : Handlers) (hashFn : Obj → String) (r : Request),
      r.method = .get → queryGet r.query "task" = some TASK_RESULT →
      o.secret = "" ∨ isValidSecret o r = true →
      smssyncHandle o h hashFn r =
        .ok (.vobj [("message_uuids", .varr (jsConcat h.onQueued.result))])) := by
  constructor
  · intro o h hashFn r hm hq
    obtain ⟨m, q, b⟩ := r
    change m = Method.post at hm
    subst hm
    simp only [queryGet] at hq
    simp [smssyncHandle, isAllowedRequest, handlePost, queryGet, hq, taskIs,
      TASK_SENT, onSentCompose]
  · intro o h hashFn r hm hq hsec
    obtain ⟨m, q, b⟩ := r
    change m = Method.get at hm
    subst hm
    simp only [queryGet] at hq
    cases hsec with
    | inl hs =>
      simp [smssyncHandle, isAllowedRequest, handleGet, queryGet, hq, taskIs,
        TASK_RESULT, onQueuedCompose, hs]
    | inr hv =>
      simp [smssyncHandle, isAllowedRequest, handleGet, queryGet, hq, taskIs,
        TASK_RESULT, onQueuedCompose, hv]

/-- Witness for C9: scenario C (POST task=sent, echoing handler, no secret
at all) still renders the queued uuids, and an authenticated GET
task=result renders the waiting uuids. -/
theorem ack_and_queuedpoll_ignore_errors_witness :
    smssyncHandle defaultOptions testHandlers constHash
        ⟨Method.post, [("task", "sent")],
         [("queued_messages", .varr [.vstr "u1"])]⟩ =
      .ok (.vobj [("queued_messages", .varr [.vstr "u1"])]) ∧
    smssyncHandle defaultOptions testHandlers constHash
        ⟨Method.get, [("task", "result"), ("secret", "smssync")], []⟩ =
      .ok (.vobj [("message_uuids", .varr [.vstr "u1"])]) :=
  ⟨ack_and_queuedpoll_ignore_errors.1 defaultOptions testHandlers constHash
     ⟨Method.post, [("task", "sent")], [("queued_messages", .varr [.vstr "u1"])]⟩
     rfl rfl,
   ack_and_queuedpoll_ignore_errors.2 defaultOptions testHandlers constHash
     ⟨Method.get, [("task", "result"), ("secret", "smssync")], []⟩
     rfl rfl (Or.inr rfl)⟩

/-- C10: a ReceiveMessage handler failure takes precedence over any reply:
with inline errors the response is the error envelope, whose payload has no
`task` or `messages` key, whatever the result value carried. -/
theorem receive_error_precedence (o : Options) (args : CbArgs) (e : JsError)
    (he : args.error = some e) (hin : o.error = true) :
    onReceiveCompose o args =
      .ok (.vobj [("payload", .vobj
        [("success", .vbool false),
         ("error", .vstr (jsOrStr e.message "Fail to process received message"))])]) ∧
    lookupKey [("success", Value.vbool false),
      ("error", Value.vstr (jsOrStr e.message "Fail to process received message"))]
      "task" = none ∧
    lookupKey [("success", Value.vbool false),
      ("error", Value.vstr (jsOrStr e.message "Fail to process received message"))]
      "messages" = none := by
  refine ⟨?_, rfl, rfl⟩
  simp [onReceiveCompose, he, hin, errorReply]

/-- Witness for C10: the handler fails with "boom" while also returning a
reply with a non-empty `to`, under reply-enabled inline-error defaults; the
error envelope wins. -/
theorem receive_error_precedence_witness :
    onReceiveCompose defaultOptions
        ⟨some (JsError.mk "boom"), .varr [.vobj [("to", .vstr "+1")]]⟩ =
      .ok (.vobj [("payload", .vobj
        [("success", .vbool false), ("error", .vstr "boom")])]) :=
  (receive_error_precedence defaultOptions
    ⟨some (JsError.mk "boom"), .varr [.vobj [("to", .vstr "+1")]]⟩
    (JsError.mk "boom") rfl rfl).1
